import Mathlib

/-!
Shallow embedding of the `pm.core` subsystem (Plan / Task data model and the
dependency-graph Validator) of the repository, together with theorems that
settle the frozen claims about it.

Conventions of the embedding:
* Python timestamps (`get_timestamp()`) are modelled by passing an explicit
  `now : String` argument to every mutator; each stamp written during one call
  uses that value.  No claim depends on the concrete timestamp text, only on
  whether a field is set (`some`) or unset (`none`).
* Python `None` becomes `Option.none`; optional string fields are
  `Option String`.
* Python mutating methods become pure functions returning the updated record.
* File I/O performed by the original (saving or deleting task files) is an
  external collaborator and is not modelled; only the in-memory effect and the
  raised precondition errors are, the latter as `Except String`.
* Python sets are modelled as `List String` used only through membership.
-/

namespace PM

/-- Task status enumeration, mirroring `TaskStatus` in `pm/core/task.py`. -/
inductive TaskStatus where
  | pending
  | ready
  | executing
  | completed
  | failed
  | blocked
deriving DecidableEq, Repr

/-- Lowercase string value of a task status, as in the Python enum. -/
def TaskStatus.toStr : TaskStatus → String
  | .pending => "pending"
  | .ready => "ready"
  | .executing => "executing"
  | .completed => "completed"
  | .failed => "failed"
  | .blocked => "blocked"

/-- Task priority enumeration, mirroring `TaskPriority` in `pm/core/task.py`. -/
inductive TaskPriority where
  | critical
  | high
  | medium
  | low
deriving DecidableEq, Repr

/-- Lowercase string value of a task priority, as in the Python enum. -/
def TaskPriority.toStr : TaskPriority → String
  | .critical => "critical"
  | .high => "high"
  | .medium => "medium"
  | .low => "low"

/-- Task record, mirroring the `Task` dataclass in `pm/core/task.py`.
The `estimated_hours` float is modelled as a rational; no claim computes
with it. -/
structure Task where
  id : String
  order : Int := 0
  created_at : Option String := none
  updated_at : Option String := none
  title : String := ""
  description : String := ""
  priority : TaskPriority := .medium
  estimated_hours : ℚ := 0
  status : TaskStatus := .pending
  started_at : Option String := none
  completed_at : Option String := none
  progress : Int := 0
  requires : List String := []
  blocks : List String := []
  assigned_to : Option String := none
  notes : String := ""
  artifacts : List String := []
deriving DecidableEq, Repr

/-- Mirrors `Task.update_status`: set the status, stamp `updated_at`, stamp
`started_at` on entering EXECUTING only when unset, stamp `completed_at` on
COMPLETED and FAILED, and force progress to 100 on COMPLETED. -/
def Task.update_status (t : Task) (new_status : TaskStatus) (now : String) : Task :=
  let t1 := { t with status := new_status, updated_at := some now }
  let t2 :=
    if new_status = TaskStatus.executing ∧ t1.started_at = none then
      { t1 with started_at := some now }
    else t1
  if new_status = TaskStatus.completed ∨ new_status = TaskStatus.failed then
    let t3 := { t2 with completed_at := some now }
    if new_status = TaskStatus.completed then { t3 with progress := 100 } else t3
  else t2

/-- Mirrors `Task.update_progress`: clamp the value to [0, 100], stamp
`updated_at`, and cascade into `update_status(COMPLETED)` when the clamped
value is 100 and the status is not already COMPLETED. -/
def Task.update_progress (t : Task) (value : Int) (now : String) : Task :=
  let t1 := { t with progress := max 0 (min 100 value), updated_at := some now }
  if t1.progress = 100 ∧ t1.status ≠ TaskStatus.completed then
    t1.update_status TaskStatus.completed now
  else t1

/-!
Exact model of the IEEE-754 binary64 arithmetic in `Plan.update_progress`.
Python evaluates `int((completed_count / len(tasks)) * 100)` with double
division and double multiplication; both roundings (round to nearest, ties
to even, 53-bit significand, minimum exponent -1074 for subnormals) are
reproduced here exactly over integers, representing a nonnegative double as
mantissa times 2 ^ exp2.  The model agrees with CPython on every pair
0 <= completed <= total <= 800 and on thousands of random larger pairs; in
particular it reproduces the values 66 for 2 of 3 and 28 for 29 of 100,
where the double arithmetic falls below the exact floor 29.
-/

/-- Fuel-driven floor base-2 logarithm, written with explicit fuel so that
concrete evaluation reduces in the kernel; the argument at least halves each
step, so fuel n suffices for natLog2. -/
def natLog2Go (fuel n : Nat) : Nat :=
  match fuel with
  | 0 => 0
  | fuel + 1 => if 2 ≤ n then natLog2Go fuel (n / 2) + 1 else 0

/-- Floor base-2 logarithm: the largest k with 2 ^ k ≤ n (0 for 0 and 1). -/
def natLog2 (n : Nat) : Nat := natLog2Go n n

/-- Largest n with 2 ^ n ≤ a / b, for a, b ≥ 1. -/
def ratFloorLog2 (a b : Nat) : Int :=
  if b ≤ a then (natLog2 (a / b) : Int)
  else
    let m := natLog2 (b / a)
    if b ≤ a * 2 ^ m then -(m : Int) else -((m : Int) + 1)

/-- Round num / den to the nearest integer, ties to even. -/
def rndDiv (num den : Nat) : Nat :=
  let q := num / den
  let r := num % den
  if 2 * r < den then q
  else if den < 2 * r then q + 1
  else if q % 2 = 0 then q else q + 1

/-- Nonnegative binary64 value mantissa times 2 ^ exp2. -/
structure B64 where
  mantissa : Nat
  exp2 : Int
deriving DecidableEq, Repr

/-- Binary64 division a / b as CPython computes it for nonnegative ints: the
exact quotient rounded to 53 significant bits, with the subnormal exponent
clamp at -1074. -/
def floatDivNat (a b : Nat) : B64 :=
  if a = 0 then ⟨0, 0⟩
  else
    let n := ratFloorLog2 a b
    let e := max (n - 52) (-1074)
    if e ≤ 0 then ⟨rndDiv (a * 2 ^ (-e).toNat) b, e⟩
    else ⟨rndDiv a (b * 2 ^ e.toNat), e⟩

/-- Binary64 product of a double with the exact constant 100, correctly
rounded to 53 significant bits. -/
def floatMul100 (x : B64) : B64 :=
  if x.mantissa = 0 then ⟨0, 0⟩
  else
    let M := 100 * x.mantissa
    let nV : Int := (natLog2 M : Int) + x.exp2
    let eV := max (nV - 52) (-1074)
    let s := eV - x.exp2
    if s ≤ 0 then ⟨M, x.exp2⟩
    else ⟨rndDiv M (2 ^ s.toNat), eV⟩

/-- Python int() of a nonnegative double: truncation toward zero, which is
the floor here. -/
def truncB64 (x : B64) : Nat :=
  if 0 ≤ x.exp2 then x.mantissa * 2 ^ x.exp2.toNat
  else x.mantissa / 2 ^ (-x.exp2).toNat

/-- The value int((c / t) * 100) that `Plan.update_progress` computes in
double arithmetic for c completed tasks of t. -/
def pyProgress (c t : Nat) : Int := (truncB64 (floatMul100 (floatDivNat c t)) : Int)

/-- Plan status enumeration, mirroring `PlanStatus` in `pm/core/plan.py`. -/
inductive PlanStatus where
  | draft
  | pending
  | approved
  | executing
  | completed
  | failed
  | cancelled
deriving DecidableEq, Repr

/-- Lowercase string value of a plan status, as in the Python enum. -/
def PlanStatus.toStr : PlanStatus → String
  | .draft => "draft"
  | .pending => "pending"
  | .approved => "approved"
  | .executing => "executing"
  | .completed => "completed"
  | .failed => "failed"
  | .cancelled => "cancelled"

/-- Parse a lowercase status string back into a `PlanStatus`; `none` models the
`ValueError` the Python enum constructor raises on an unknown value. -/
def PlanStatus.ofStr (s : String) : Option PlanStatus :=
  if s = "draft" then some .draft
  else if s = "pending" then some .pending
  else if s = "approved" then some .approved
  else if s = "executing" then some .executing
  else if s = "completed" then some .completed
  else if s = "failed" then some .failed
  else if s = "cancelled" then some .cancelled
  else none

/-- Storage configuration handle (`pm/core/config.py`).  The claims only
depend on whether a config is attached to a plan, so only the base directory
is carried. -/
structure Config where
  base_dir : String
deriving DecidableEq, Repr

/-- Plan record, mirroring the `Plan` dataclass in `pm/core/plan.py`.
The private Python fields `_tasks` and `_config` are the `tasks` and
`config` fields here. -/
structure Plan where
  name : String
  id : String := ""
  version : String := "1.0.0"
  created_at : Option String := none
  updated_at : Option String := none
  author : Option String := none
  tags : List String := []
  brief : String := ""
  objectives : List String := []
  deliverables : List String := []
  status : PlanStatus := .draft
  is_approved : Bool := false
  approved_by : Option String := none
  approved_at : Option String := none
  started_at : Option String := none
  completed_at : Option String := none
  progress : Int := 0
  tasks : List Task := []
  config : Option Config := none
deriving DecidableEq, Repr

/-- Mirrors `Plan.set_config`. -/
def Plan.set_config (p : Plan) (c : Config) : Plan :=
  { p with config := some c }

/-- Mirrors `Plan.update_status`: set the status, stamp `updated_at`, stamp
`started_at` on first EXECUTING entry, stamp `completed_at` on
COMPLETED / FAILED / CANCELLED, and force progress to 100 on COMPLETED. -/
def Plan.update_status (p : Plan) (new_status : PlanStatus) (now : String) : Plan :=
  let p1 := { p with status := new_status, updated_at := some now }
  let p2 :=
    if new_status = PlanStatus.executing ∧ p1.started_at = none then
      { p1 with started_at := some now }
    else p1
  if new_status = PlanStatus.completed ∨ new_status = PlanStatus.failed ∨
      new_status = PlanStatus.cancelled then
    let p3 := { p2 with completed_at := some now }
    if new_status = PlanStatus.completed then { p3 with progress := 100 } else p3
  else p2

/-- Mirrors `Plan.approve`: unconditionally force APPROVED and set the
approval fields. -/
def Plan.approve (p : Plan) (approved_by : String) (now : String) : Plan :=
  { p with
    is_approved := true
    approved_by := some approved_by
    approved_at := some now
    status := PlanStatus.approved
    updated_at := some now }

/-- Mirrors `Plan.update_progress`.  With no tasks it sets progress to 0 and
returns at once (no `updated_at` stamp).  Otherwise it computes
`int((completed_count / len(tasks)) * 100)` exactly as the Python double
arithmetic does, via `pyProgress` (so 2 of 3 completed gives 66, and 29 of
100 gives 28, because 0.29 * 100 rounds to 28.999999999999996).  When the
recomputed progress is 100 and the status is not COMPLETED it cascades into
`update_status(COMPLETED)`. -/
def Plan.update_progress (p : Plan) (now : String) : Plan :=
  if p.tasks = [] then { p with progress := 0 }
  else
    let completed_count := (p.tasks.filter fun t => t.status = TaskStatus.completed).length
    let p1 := { p with
      progress := pyProgress completed_count p.tasks.length
      updated_at := some now }
    if p1.progress = 100 ∧ p1.status ≠ PlanStatus.completed then
      p1.update_status PlanStatus.completed now
    else p1

/-- Mirrors `Plan.get_task`: first task with the given id, if any. -/
def Plan.get_task (p : Plan) (task_id : String) : Option Task :=
  p.tasks.find? fun t => t.id = task_id

/-- Mirrors `Plan.add_task`.  Raises (`Except.error`) when no config is
attached, before touching the task list; otherwise appends the task and
stamps `updated_at`.  Saving the task file is external I/O and not
modelled. -/
def Plan.add_task (p : Plan) (task : Task) (now : String) : Except String Plan :=
  if p.config = none then
    Except.error "Config not set. Call set_config() first."
  else
    Except.ok { p with tasks := p.tasks ++ [task], updated_at := some now }

/-- Mirrors `Plan.remove_task`.  Returns `false` and the unchanged plan when
no task has the given id; otherwise removes the first matching task from the
in-memory list and stamps `updated_at`, whether or not a config is attached
(the config only guards the deletion of the backing file, which is external
I/O and not modelled). -/
def Plan.remove_task (p : Plan) (task_id : String) (now : String) : Bool × Plan :=
  match p.get_task task_id with
  | none => (false, p)
  | some task =>
    (true, { p with tasks := p.tasks.erase task, updated_at := some now })

/-- Metadata group of the serialized plan record. -/
structure PlanMetadataDict where
  id : String
  name : String
  version : String
  created_at : Option String
  updated_at : Option String
  author : Option String
  tags : List String
deriving DecidableEq, Repr

/-- Summary group of the serialized plan record. -/
structure PlanSummaryDict where
  brief : String
  objectives : List String
  deliverables : List String
deriving DecidableEq, Repr

/-- Status group of the serialized plan record; `current` is the lowercase
status string. -/
structure PlanStatusDict where
  current : String
  is_approved : Bool
  approved_by : Option String
  approved_at : Option String
deriving DecidableEq, Repr

/-- Execution group of the serialized plan record. -/
structure PlanExecutionDict where
  started_at : Option String
  completed_at : Option String
  progress : Int
deriving DecidableEq, Repr

/-- Tasks-summary group of the serialized plan record, recomputed from the
currently loaded tasks on every `to_dict`. -/
structure TasksSummaryDict where
  total : Nat
  completed : Nat
  in_progress : Nat
  blocked : Nat
deriving DecidableEq, Repr

/-- Serialized plan record produced by `Plan.to_dict`.  Python uses a nested
dict with this fixed key schema; it is modelled as a record of groups. -/
structure PlanDict where
  metadata : PlanMetadataDict
  summary : PlanSummaryDict
  status : PlanStatusDict
  execution : PlanExecutionDict
  tasks_summary : TasksSummaryDict
deriving DecidableEq, Repr

/-- Mirrors `Plan._calculate_tasks_summary`: counts of all tasks and of those
with status COMPLETED, EXECUTING, BLOCKED. -/
def Plan.calculate_tasks_summary (p : Plan) : TasksSummaryDict :=
  { total := p.tasks.length
    completed := (p.tasks.filter fun t => t.status = TaskStatus.completed).length
    in_progress := (p.tasks.filter fun t => t.status = TaskStatus.executing).length
    blocked := (p.tasks.filter fun t => t.status = TaskStatus.blocked).length }

/-- Mirrors `Plan.to_dict`. -/
def Plan.to_dict (p : Plan) : PlanDict :=
  { metadata :=
      { id := p.id
        name := p.name
        version := p.version
        created_at := p.created_at
        updated_at := p.updated_at
        author := p.author
        tags := p.tags }
    summary :=
      { brief := p.brief
        objectives := p.objectives
        deliverables := p.deliverables }
    status :=
      { current := p.status.toStr
        is_approved := p.is_approved
        approved_by := p.approved_by
        approved_at := p.approved_at }
    execution :=
      { started_at := p.started_at
        completed_at := p.completed_at
        progress := p.progress }
    tasks_summary := p.calculate_tasks_summary }

/-- Mirrors `Plan.from_dict` followed by the dataclass `__post_init__`:
missing `created_at` / `updated_at` are stamped with the current time, an
unknown status string raises (`Except.error`), and the task list starts
empty (tasks are loaded separately).  The record schema always carries every
key, as any dict produced by `to_dict` does. -/
def Plan.from_dict (data : PlanDict) (now : String) : Except String Plan :=
  match PlanStatus.ofStr data.status.current with
  | none => Except.error ("is not a valid PlanStatus: " ++ data.status.current)
  | some st =>
    Except.ok
      { id := data.metadata.id
        name := data.metadata.name
        version := data.metadata.version
        created_at := some (data.metadata.created_at.getD now)
        updated_at := some (data.metadata.updated_at.getD now)
        author := data.metadata.author
        tags := data.metadata.tags
        brief := data.summary.brief
        objectives := data.summary.objectives
        deliverables := data.summary.deliverables
        status := st
        is_approved := data.status.is_approved
        approved_by := data.status.approved_by
        approved_at := data.status.approved_at
        started_at := data.execution.started_at
        completed_at := data.execution.completed_at
        progress := data.execution.progress
        tasks := []
        config := none }

/-- Boolean substring test, modelling the Python `needle in hay` operator on
strings. -/
def containsSub (hay needle : String) : Bool :=
  (List.range (hay.data.length + 1)).any fun i => needle.data.isPrefixOf (hay.data.drop i)

namespace Validator

/-- Dependency-scanning loop of `Validator.check_task_ready_to_execute`:
walk `requires` in order and return at the first id that is not among the
completed ids, naming the dependency by title when a task with that id
exists in `all_tasks` and by bare id otherwise. -/
def checkDeps (reqs : List String) (completed_task_ids : List String)
    (all_tasks : List Task) : Bool × Option String :=
  match reqs with
  | [] => (true, none)
  | req_id :: rest =>
    if req_id ∈ completed_task_ids then checkDeps rest completed_task_ids all_tasks
    else
      match all_tasks.find? fun t => t.id = req_id with
      | some req_task =>
        (false, some ("Waiting for task " ++ req_id ++ " (" ++ req_task.title ++ ")"))
      | none => (false, some ("Dependency " ++ req_id ++ " not found"))

/-- Mirrors `Validator.check_task_ready_to_execute`. -/
def check_task_ready_to_execute (task : Task) (all_tasks : List Task) :
    Bool × Option String :=
  if task.status = TaskStatus.completed then (false, some "Task already completed")
  else if task.status = TaskStatus.failed then (false, some "Task has failed")
  else if task.status = TaskStatus.blocked then (false, some "Task is blocked")
  else
    let completed_task_ids :=
      (all_tasks.filter fun t => t.status = TaskStatus.completed).map fun t => t.id
    checkDeps task.requires completed_task_ids all_tasks

/-- Entry a single task contributes to `find_blocked_tasks`: the manual
BLOCKED reason, or the readiness reason when the check failed with a
truthy reason containing the text Waiting for. -/
def blockedEntry (tasks : List Task) (task : Task) : Option (Task × String) :=
  if task.status = TaskStatus.blocked then some (task, "Manually marked as blocked")
  else
    let r := check_task_ready_to_execute task tasks
    match r.2 with
    | some reason =>
      if r.1 = false ∧ reason ≠ "" ∧ containsSub reason "Waiting for" then
        some (task, reason)
      else none
    | none => none

/-- Mirrors `Validator.find_blocked_tasks`, preserving input order. -/
def find_blocked_tasks (tasks : List Task) : List (Task × String) :=
  tasks.filterMap (blockedEntry tasks)

/-- Numeric rank of a priority, mirroring the `priority_order` dict in
`Validator.suggest_next_tasks` (the dict covers every enum value, so its
default of 2 is never consulted). -/
def priorityRank : TaskPriority → Nat
  | .critical => 0
  | .high => 1
  | .medium => 2
  | .low => 3

/-- Sort key used by `suggest_next_tasks`: priority rank, then task order. -/
def taskKey (t : Task) : Nat × Int :=
  (priorityRank t.priority, t.order)

/-- Lexicographic comparison of sort keys, as Python compares the key
tuples `(priority_order[...], t.order)`. -/
def keyLE (a b : Task) : Prop :=
  priorityRank a.priority < priorityRank b.priority ∨
    (priorityRank a.priority = priorityRank b.priority ∧ a.order ≤ b.order)

instance (a b : Task) : Decidable (keyLE a b) := by
  unfold keyLE
  infer_instance

/-- Boolean form of `keyLE`, used as the comparator of the stable sort. -/
def suggestLE (a b : Task) : Bool :=
  decide (keyLE a b)

/-- Mirrors `Validator.suggest_next_tasks`: keep the tasks whose readiness
check passes, then stable-sort by `(priority rank, order)`.  Python uses
`list.sort`, a stable sort; since a stable sort by a key is unique, it is
modelled by `List.mergeSort`, which is stable. -/
def suggest_next_tasks (plan : Plan) : List Task :=
  ((plan.tasks.filter fun t => (check_task_ready_to_execute t plan.tasks).1).mergeSort
    suggestLE)

/-- Mutable traversal state of `Validator.detect_circular_dependencies`:
the `visited` and `rec_stack` Python sets (modelled as lists used through
membership), the current DFS `path`, and the accumulated `cycles`. -/
structure DfsState where
  visited : List String
  recStack : List String
  path : List String
  cycles : List (List String)
deriving DecidableEq, Repr

/-- Neighbor loop of the inner `dfs` function, with `visit` the recursive
descent into an unvisited neighbor: when a neighbor is on the recursion
stack, record the cycle `path[path.index(neighbor):] + [neighbor]` and
return true. -/
def dfsNeighbors (visit : String → DfsState → Bool × DfsState) :
    List String → DfsState → Bool × DfsState
  | [], s => (false, s)
  | n :: rest, s =>
    if n ∈ s.visited then
      if n ∈ s.recStack then
        (true, { s with cycles := s.cycles ++ [s.path.drop (s.path.indexOf n) ++ [n]] })
      else dfsNeighbors visit rest s
    else
      match visit n s with
      | (true, s2) => (true, s2)
      | (false, s2) => dfsNeighbors visit rest s2

/-- Body of the inner `dfs(node)` function: mark the node visited, push it on
the recursion stack and the path, scan its neighbors, and on a cycle-free
return pop the path and drop the node from the recursion stack.  The fuel
argument only bounds the recursion depth, which in the original is bounded by
the number of distinct nodes; the top-level entry supplies more fuel than any
traversal can consume. -/
def dfsNode (g : String → List String) : Nat → String → DfsState → Bool × DfsState
  | 0 => fun _ s => (false, s)
  | fuel + 1 => fun node s =>
    let s1 : DfsState :=
      { s with
        visited := node :: s.visited
        recStack := node :: s.recStack
        path := s.path ++ [node] }
    match dfsNeighbors (dfsNode g fuel) (g node) s1 with
    | (true, s2) => (true, s2)
    | (false, s2) =>
      (false, { s2 with path := s2.path.dropLast, recStack := s2.recStack.erase node })

/-- Mirrors `Validator.detect_circular_dependencies`.  The Python dict
comprehension `{task.id: task.requires for task in tasks}` lets a later task
with a duplicate id win, and iterates keys in first-occurrence order; the
fuel passed to the traversal exceeds the number of distinct nodes, so it
never runs out. -/
def detect_circular_dependencies (tasks : List Task) : List (List String) :=
  let g : String → List String := fun node =>
    match tasks.reverse.find? fun t => t.id = node with
    | some t => t.requires
    | none => []
  let keys := (tasks.map fun t => t.id).eraseDups
  let fuel := tasks.length + (tasks.map fun t => t.requires.length).sum + 1
  let final := keys.foldl
    (fun s task_id => if task_id ∈ s.visited then s else (dfsNode g fuel task_id s).2)
    ⟨[], [], [], []⟩
  final.cycles

end Validator

/-! Concrete fixtures used by counterexamples and witnesses. -/

/-- Plan with no tasks. -/
def emptyPlan : Plan := { name := "demo-plan" }

/-- Completed fixture task. -/
def c1t1 : Task := { id := "c1a", status := TaskStatus.completed }

/-- Completed fixture task. -/
def c1t2 : Task := { id := "c1b", status := TaskStatus.completed }

/-- Pending fixture task. -/
def c1t3 : Task := { id := "c1c" }

/-- Plan with three tasks of which two are completed. -/
def c1plan : Plan := { name := "p-c1", tasks := [c1t1, c1t2, c1t3] }

/-- Fixture task for the plan without a config. -/
def taskR : Task := { id := "r1" }

/-- Plan holding one task and no attached config. -/
def planNoCfg : Plan := { name := "demo", tasks := [taskR] }

/-- Task requiring b, part of a two-cycle. -/
def cyA : Task := { id := "a", requires := ["b"] }

/-- Task requiring a, part of a two-cycle. -/
def cyB : Task := { id := "b", requires := ["a"] }

/-- Task requiring b, outside the two-cycle. -/
def cyC : Task := { id := "c", requires := ["b"] }

/-- Failed fixture task with empty requires. -/
def c8task : Task := { id := "e", status := TaskStatus.failed }

/-- Pending fixture task with everything unset. -/
def c5task : Task := { id := "k" }

/-- Failed fixture task for the progress-cascade witness. -/
def c4task : Task := { id := "f", status := TaskStatus.failed }

/-! Theorems settling the claims. -/

/-- C10: for every plan whose task list is empty, update_progress sets
progress to 0 and leaves every other field unchanged; in particular
updated_at is not stamped and the status does not change. -/
theorem C10_update_progress_empty_frame (p : Plan) (now : String)
    (h : p.tasks = []) :
    p.update_progress now = { p with progress := 0 } := by
  simp [Plan.update_progress, h]

/-- Witness for C10 at a concrete empty plan. -/
theorem C10_witness :
    emptyPlan.tasks = [] ∧
    emptyPlan.update_progress "t1" = { emptyPlan with progress := 0 } :=
  ⟨rfl, C10_update_progress_empty_frame emptyPlan "t1" rfl⟩

/-- C4: Task.update_progress clamps the value to [0, 100], and whenever the
clamped value is 100 and the prior status was not COMPLETED the status
becomes COMPLETED. -/
theorem C4_task_update_progress (t : Task) (v : Int) (now : String) :
    (t.update_progress v now).progress = max 0 (min 100 v) ∧
    (max 0 (min 100 v) = 100 → t.status ≠ TaskStatus.completed →
      (t.update_progress v now).status = TaskStatus.completed) := by
  constructor
  · simp only [Task.update_progress, Task.update_status]
    split_ifs with h <;> simp_all
  · intro h100 hst
    simp only [Task.update_progress, Task.update_status]
    split_ifs with h <;> simp_all

/-- Witness for C4: a FAILED task receiving update_progress(150) ends with
progress 100 and status COMPLETED. -/
theorem C4_witness :
    (c4task.update_progress 150 "t7").progress = 100 ∧
    (c4task.update_progress 150 "t7").status = TaskStatus.completed := by
  have h := C4_task_update_progress c4task 150 "t7"
  exact ⟨h.1.trans (by decide), h.2 (by decide) (by decide)⟩

/-- C5: Task.update_status always stamps updated_at; entering EXECUTING
stamps started_at only when unset; entering COMPLETED stamps completed_at
and forces progress to 100; entering FAILED stamps completed_at and leaves
progress unchanged; a task that never entered EXECUTING and is completed
directly ends with started_at unset, completed_at set, progress 100. -/
theorem C5_task_update_status (t : Task) (new : TaskStatus) (now : String) :
    ((t.update_status new now).updated_at = some now) ∧
    (new = TaskStatus.executing → t.started_at = none →
      (t.update_status new now).started_at = some now) ∧
    (new = TaskStatus.executing → t.started_at ≠ none →
      (t.update_status new now).started_at = t.started_at) ∧
    (new ≠ TaskStatus.executing →
      (t.update_status new now).started_at = t.started_at) ∧
    (new = TaskStatus.completed →
      (t.update_status new now).completed_at = some now ∧
      (t.update_status new now).progress = 100) ∧
    (new = TaskStatus.failed →
      (t.update_status new now).completed_at = some now ∧
      (t.update_status new now).progress = t.progress) ∧
    (t.started_at = none → new = TaskStatus.completed →
      (t.update_status new now).started_at = none ∧
      (t.update_status new now).completed_at = some now ∧
      (t.update_status new now).progress = 100) := by
  cases new <;> cases hs : t.started_at <;> simp [Task.update_status, hs]

/-- Witness for C5: completing a never-started task leaves started_at unset,
sets completed_at, and forces progress to 100. -/
theorem C5_witness :
    (c5task.update_status TaskStatus.completed "t9").started_at = none ∧
    (c5task.update_status TaskStatus.completed "t9").completed_at = some "t9" ∧
    (c5task.update_status TaskStatus.completed "t9").progress = 100 :=
  (C5_task_update_status c5task TaskStatus.completed "t9").2.2.2.2.2.2 rfl rfl

/-- C8: a task with empty requires is ready exactly when its status is none
of COMPLETED, FAILED, BLOCKED; those three return false with the matching
reason, and a ready result carries no reason. -/
theorem C8_empty_requires_ready (t : Task) (ts : List Task)
    (h : t.requires = []) :
    (((Validator.check_task_ready_to_execute t ts).1 = true) ↔
      (t.status ≠ TaskStatus.completed ∧ t.status ≠ TaskStatus.failed ∧
        t.status ≠ TaskStatus.blocked)) ∧
    (t.status = TaskStatus.completed →
      Validator.check_task_ready_to_execute t ts =
        (false, some "Task already completed")) ∧
    (t.status = TaskStatus.failed →
      Validator.check_task_ready_to_execute t ts = (false, some "Task has failed")) ∧
    (t.status = TaskStatus.blocked →
      Validator.check_task_ready_to_execute t ts = (false, some "Task is blocked")) ∧
    ((Validator.check_task_ready_to_execute t ts).1 = true →
      Validator.check_task_ready_to_execute t ts = (true, none)) := by
  cases hstat : t.status <;>
    simp [Validator.check_task_ready_to_execute, Validator.checkDeps, h, hstat]

/-- Witness for C8 at a concrete FAILED task with empty requires. -/
theorem C8_witness :
    c8task.requires = [] ∧
    Validator.check_task_ready_to_execute c8task [c8task] =
      (false, some "Task has failed") :=
  ⟨rfl, (C8_empty_requires_ready c8task [c8task] rfl).2.2.1 rfl⟩

/-- C3 counterexample: on a plan without a config, remove_task does not raise
a precondition violation; it succeeds and mutates the in-memory task list. -/
theorem C3_counterexample :
    planNoCfg.config = none ∧
    (planNoCfg.remove_task "r1" "t1").1 = true ∧
    (planNoCfg.remove_task "r1" "t1").2.tasks = [] ∧
    planNoCfg.tasks ≠ [] := by decide

/-- C3 amended: with no config attached, add_task raises the precondition
error and leaves the plan untouched, while remove_task never checks the
config: it removes the first matching task from the in-memory list and
stamps updated_at (only the backing-file deletion is skipped), returning
false and the unchanged plan only when no task has the id. -/
theorem C3_amended_no_config (p : Plan) (t : Task) (tid now : String)
    (h : p.config = none) :
    (p.add_task t now = Except.error "Config not set. Call set_config() first.") ∧
    (p.get_task tid = none → p.remove_task tid now = (false, p)) ∧
    (∀ task, p.get_task tid = some task →
      p.remove_task tid now =
        (true, { p with tasks := p.tasks.erase task, updated_at := some now })) := by
  refine ⟨by simp [Plan.add_task, h], ?_, ?_⟩
  · intro hn
    simp [Plan.remove_task, hn]
  · intro task hsome
    simp [Plan.remove_task, hsome]

/-- Witness for the amended C3 at the concrete config-less plan. -/
theorem C3_amended_witness :
    planNoCfg.add_task taskR "t2" =
      Except.error "Config not set. Call set_config() first." ∧
    planNoCfg.remove_task "r1" "t2" =
      (true, { planNoCfg with
        tasks := planNoCfg.tasks.erase taskR
        updated_at := some "t2" }) :=
  ⟨(C3_amended_no_config planNoCfg taskR "r1" "t2" rfl).1,
    (C3_amended_no_config planNoCfg taskR "r1" "t2" rfl).2.2 taskR (by decide)⟩

/-- C1 counterexample: with 2 of 3 tasks completed, update_progress sets
progress to 66, while the claimed round(100 times 2 / 3) is 67. -/
theorem C1_counterexample :
    (c1plan.update_progress "t1").progress = 66 ∧
    round ((100 * (2 : ℚ)) / 3) = 67 := by
  constructor
  · decide
  · norm_num [round_eq]

/-- C1 amended: update_progress sets progress to the truncation of the
double-precision product (completed / total) * 100 - not to
round(100 * completed / total) - and to 0 when the plan has no tasks; the
cascade into COMPLETED does not alter the value, which is already 100 when
it fires.  Concretely, 2 of 3 completed gives 66 (round would give 67), and
29 of 100 gives 28, one below even the exact floor 29. -/
theorem C1_amended_float_truncation :
    (∀ (p : Plan) (now : String),
      (p.update_progress now).progress =
        if p.tasks = [] then 0
        else pyProgress
          ((p.tasks.filter fun t => t.status = TaskStatus.completed).length)
          p.tasks.length) ∧
    pyProgress 2 3 = 66 ∧
    pyProgress 29 100 = 28 := by
  refine ⟨?_, by decide, by decide⟩
  intro p now
  by_cases h : p.tasks = []
  · simp [Plan.update_progress, h]
  · simp only [Plan.update_progress, h, if_neg, if_false]
    split_ifs with hc <;> simp_all [Plan.update_status]

/-- C2 failing input: on tasks a (requires b), b (requires a), c (requires b),
the traversal leaves its recursion stack dirty after reporting the first
cycle, and the second reported list is b, c, b although no task with id b
requires c - the reported list is not a closed loop of the requires graph. -/
theorem C2_code_bug_eval :
    Validator.detect_circular_dependencies [cyA, cyB, cyC] =
      [["a", "b", "a"], ["b", "c", "b"]] ∧
    (([cyA, cyB, cyC].filter fun t => t.id == "b").all
      fun t => decide (("c" : String) ∉ t.requires)) = true := by decide

/-- Transitivity of the boolean sort comparator. -/
theorem suggestLE_trans (a b c : Task) (hab : Validator.suggestLE a b = true)
    (hbc : Validator.suggestLE b c = true) : Validator.suggestLE a c = true := by
  simp only [Validator.suggestLE, Validator.keyLE, decide_eq_true_eq] at hab hbc ⊢
  omega

/-- Totality of the boolean sort comparator. -/
theorem suggestLE_total (a b : Task) :
    (Validator.suggestLE a b || Validator.suggestLE b a) = true := by
  simp only [Validator.suggestLE, Validator.keyLE, Bool.or_eq_true, decide_eq_true_eq]
  omega

/-- Low-priority ready fixture task. -/
def c6t1 : Task := { id := "s1", priority := TaskPriority.low, order := 0 }

/-- Critical ready fixture task. -/
def c6t2 : Task := { id := "s2", priority := TaskPriority.critical, order := 1 }

/-- Critical ready fixture task with the same key as the previous one. -/
def c6t3 : Task := { id := "s3", priority := TaskPriority.critical, order := 1 }

/-- Blocked fixture task, filtered out of suggestions. -/
def c6t4 : Task :=
  { id := "s4"
    priority := TaskPriority.medium
    order := 0
    status := TaskStatus.blocked }

/-- Plan mixing ready tasks of different priorities with a blocked one. -/
def c6plan : Plan := { name := "p-c6", tasks := [c6t1, c6t2, c6t3, c6t4] }

/-- C6: suggest_next_tasks returns a permutation of exactly the ready tasks,
sorted non-decreasingly by (priority rank, order); pairs of ready tasks with
equal keys keep their original relative order; and every returned task is an
element of the input plan (the query is pure and mutates nothing). -/
theorem C6_suggest_next_tasks (plan : Plan) :
    List.Perm (Validator.suggest_next_tasks plan)
      (plan.tasks.filter fun t =>
        (Validator.check_task_ready_to_execute t plan.tasks).1) ∧
    List.Pairwise Validator.keyLE (Validator.suggest_next_tasks plan) ∧
    (∀ a b : Task, Validator.taskKey a = Validator.taskKey b →
      List.Sublist [a, b]
        (plan.tasks.filter fun t =>
          (Validator.check_task_ready_to_execute t plan.tasks).1) →
      List.Sublist [a, b] (Validator.suggest_next_tasks plan)) ∧
    (∀ t ∈ Validator.suggest_next_tasks plan, t ∈ plan.tasks) := by
  refine ⟨List.mergeSort_perm _ _, ?_, ?_, ?_⟩
  · exact (List.sorted_mergeSort (fun a b c => suggestLE_trans a b c)
      (fun a b => suggestLE_total a b) _).imp fun h => of_decide_eq_true h
  · intro a b hk hsub
    refine List.pair_sublist_mergeSort (fun a b c => suggestLE_trans a b c)
      (fun a b => suggestLE_total a b) ?_ hsub
    simp only [Validator.taskKey, Prod.mk.injEq] at hk
    simp only [Validator.suggestLE, Validator.keyLE, decide_eq_true_eq]
    omega
  · intro t ht
    simp only [Validator.suggest_next_tasks] at ht
    exact (List.mem_filter.mp (List.mem_mergeSort.mp ht)).1

/-- Witness for C6 at a concrete plan, including a concrete equal-key pair. -/
theorem C6_witness :
    List.Perm (Validator.suggest_next_tasks c6plan)
      (c6plan.tasks.filter fun t =>
        (Validator.check_task_ready_to_execute t c6plan.tasks).1) ∧
    List.Sublist [c6t2, c6t3] (Validator.suggest_next_tasks c6plan) :=
  ⟨(C6_suggest_next_tasks c6plan).1,
    (C6_suggest_next_tasks c6plan).2.2.1 c6t2 c6t3 (by decide) (by decide)⟩

/-- Running fixture task of the round-trip plan. -/
def c7task : Task := { id := "w1", status := TaskStatus.executing }

/-- Fully populated plan with one loaded task, for the round-trip witness. -/
def c7plan : Plan :=
  { name := "rt-plan"
    id := "id-1"
    created_at := some "c0"
    updated_at := some "u0"
    author := some "al"
    tags := ["x"]
    brief := "b"
    objectives := ["o"]
    deliverables := ["d"]
    status := PlanStatus.approved
    is_approved := true
    approved_by := some "al"
    approved_at := some "a0"
    progress := 5
    tasks := [c7task] }

/-- C7: for a plan whose construction-time timestamps are set, deserializing
its serialized record and re-serializing reproduces the metadata, summary,
status and execution groups exactly; the tasks_summary group is recomputed
from the (empty) loaded tasks of the deserialized plan. -/
theorem C7_plan_roundtrip (p : Plan) (now : String)
    (hc : p.created_at ≠ none) (hu : p.updated_at ≠ none) :
    ∃ q, Plan.from_dict p.to_dict now = Except.ok q ∧
      q.to_dict.metadata = p.to_dict.metadata ∧
      q.to_dict.summary = p.to_dict.summary ∧
      q.to_dict.status = p.to_dict.status ∧
      q.to_dict.execution = p.to_dict.execution ∧
      q.to_dict.tasks_summary = ⟨0, 0, 0, 0⟩ := by
  obtain ⟨c, hc⟩ := Option.ne_none_iff_exists'.mp hc
  obtain ⟨u, hu⟩ := Option.ne_none_iff_exists'.mp hu
  have hst : PlanStatus.ofStr p.status.toStr = some p.status := by
    cases p.status <;> rfl
  refine ⟨
    { name := p.name
      id := p.id
      version := p.version
      created_at := some c
      updated_at := some u
      author := p.author
      tags := p.tags
      brief := p.brief
      objectives := p.objectives
      deliverables := p.deliverables
      status := p.status
      is_approved := p.is_approved
      approved_by := p.approved_by
      approved_at := p.approved_at
      started_at := p.started_at
      completed_at := p.completed_at
      progress := p.progress }, ?_, ?_, ?_, ?_, ?_, ?_⟩ <;>
    simp [Plan.from_dict, Plan.to_dict, Plan.calculate_tasks_summary, hst, hc, hu]

/-- Witness for C7: the round trip at a concrete populated plan reproduces
the metadata group. -/
theorem C7_witness :
    ((Plan.from_dict c7plan.to_dict "n1").map Plan.to_dict).map PlanDict.metadata =
      Except.ok c7plan.to_dict.metadata := by
  obtain ⟨q, hok, hm, -, -, -, -⟩ :=
    C7_plan_roundtrip c7plan "n1" (by decide) (by decide)
  rw [hok]
  simp only [Except.map]
  exact congrArg Except.ok hm

/-- Completed fixture task carrying a dangling requirement. -/
def c9done : Task := { id := "dd", status := TaskStatus.completed, requires := ["x"] }

/-- Pending fixture dependency task. -/
def c9pDep : Task := { id := "p", title := "Task P" }

/-- Fixture task whose first unmet requirement exists and whose second is
dangling. -/
def c9w : Task := { id := "w", title := "Task W", requires := ["p", "x"] }

/-- Completed fixture dependency task. -/
def c9a : Task := { id := "a", title := "Task A", status := TaskStatus.completed }

/-- Fixture task whose first unmet requirement is the dangling id x. -/
def c9t : Task := { id := "t", requires := ["a", "x"] }

/-- Plan holding the completed dependency and the dangling-dependency task. -/
def c9plan : Plan := { name := "p-c9", tasks := [c9a, c9t] }

/-- Dependencies already satisfied at the front of the requires list are
skipped by the dependency scan. -/
theorem checkDeps_skip_sat (pre rest cids : List String) (ts : List Task)
    (hpre : ∀ x ∈ pre, x ∈ cids) :
    Validator.checkDeps (pre ++ rest) cids ts = Validator.checkDeps rest cids ts := by
  induction pre with
  | nil => rfl
  | cons x xs ih =>
    have hx : x ∈ cids := hpre x (by simp)
    simp only [List.cons_append, Validator.checkDeps, if_pos hx]
    exact ih fun y hy => hpre y (by simp [hy])

/-- The task component of a find_blocked_tasks entry is the task that
produced it. -/
theorem blockedEntry_fst (ts : List Task) (u : Task) (e : Task × String)
    (h : Validator.blockedEntry ts u = some e) : e.1 = u := by
  by_cases hb : u.status = TaskStatus.blocked
  · simp only [Validator.blockedEntry, if_pos hb, Option.some.injEq] at h
    rw [← h]
  · simp only [Validator.blockedEntry, if_neg hb] at h
    rcases hr : (Validator.check_task_ready_to_execute u ts).2 with _ | reason <;>
      rw [hr] at h <;> dsimp only at h
    · exact absurd h (by simp)
    · split_ifs at h with hcond
      simp only [Option.some.injEq] at h
      rw [← h]

/-- C9 counterexample: a COMPLETED task with a dangling requirement is
reported with the status reason rather than a Dependency-not-found reason,
and a task whose earlier unmet requirement exists gets a Waiting-for reason
and does appear in find_blocked_tasks. -/
theorem C9_counterexample :
    Validator.check_task_ready_to_execute c9done [c9done] =
      (false, some "Task already completed") ∧
    Validator.check_task_ready_to_execute c9w [c9pDep, c9w] =
      (false, some "Waiting for task p (Task P)") ∧
    (Validator.find_blocked_tasks [c9pDep, c9w]).map (fun e => e.1.id) = ["w"] := by
  decide

/-- C9 amended: when the status is none of COMPLETED, FAILED, BLOCKED and
the first unmet entry of the requires list is an id no task in the list
carries, the readiness check reports Dependency-not-found; provided that
reason does not itself contain the text Waiting for, the task appears
neither in suggest_next_tasks nor in find_blocked_tasks. -/
theorem C9_amended_dangling (t : Task) (ts : List Task) (pre post : List String)
    (d : String)
    (h1 : t.status ≠ TaskStatus.completed)
    (h2 : t.status ≠ TaskStatus.failed)
    (h3 : t.status ≠ TaskStatus.blocked)
    (hreq : t.requires = pre ++ d :: post)
    (hpre : ∀ x ∈ pre,
      x ∈ (ts.filter fun u => u.status = TaskStatus.completed).map fun u => u.id)
    (hd : ∀ u ∈ ts, u.id ≠ d)
    (hw : containsSub ("Dependency " ++ d ++ " not found") "Waiting for" = false) :
    Validator.check_task_ready_to_execute t ts =
      (false, some ("Dependency " ++ d ++ " not found")) ∧
    (∀ plan : Plan, plan.tasks = ts → t ∉ Validator.suggest_next_tasks plan) ∧
    (∀ e ∈ Validator.find_blocked_tasks ts, e.1 ≠ t) := by
  have hnotc :
      d ∉ (ts.filter fun u => u.status = TaskStatus.completed).map fun u => u.id := by
    intro hmem
    obtain ⟨u, hu, hid⟩ := List.mem_map.mp hmem
    exact hd u (List.mem_of_mem_filter hu) hid
  have hfind : ts.find? (fun u => decide (u.id = d)) = none := by
    apply List.find?_eq_none.mpr
    intro u hu
    simpa using hd u hu
  have hcheck : Validator.check_task_ready_to_execute t ts =
      (false, some ("Dependency " ++ d ++ " not found")) := by
    simp only [Validator.check_task_ready_to_execute, if_neg h1, if_neg h2, if_neg h3]
    rw [hreq, checkDeps_skip_sat pre (d :: post) _ ts hpre]
    simp only [Validator.checkDeps, if_neg hnotc, hfind]
  refine ⟨hcheck, ?_, ?_⟩
  · intro plan hp hmem
    simp only [Validator.suggest_next_tasks] at hmem
    have h4 := (List.mem_filter.mp (List.mem_mergeSort.mp hmem)).2
    rw [hp, hcheck] at h4
    exact absurd h4 (by simp)
  · intro e he heq
    obtain ⟨u, hu, hbe⟩ := List.mem_filterMap.mp he
    have hue : u = t := by rw [← blockedEntry_fst ts u e hbe, heq]
    rw [hue] at hbe
    have hnone : Validator.blockedEntry ts t = none := by
      simp [Validator.blockedEntry, h3, hcheck, hw]
    rw [hnone] at hbe
    exact absurd hbe (by simp)

/-- Witness for the amended C9 at a concrete list with one completed
dependency and one dangling dependency. -/
theorem C9_amended_witness :
    Validator.check_task_ready_to_execute c9t [c9a, c9t] =
      (false, some "Dependency x not found") ∧
    c9t ∉ Validator.suggest_next_tasks c9plan ∧
    Validator.find_blocked_tasks [c9a, c9t] = [] := by
  have h := C9_amended_dangling c9t [c9a, c9t] ["a"] [] "x"
    (by decide) (by decide) (by decide) rfl (by decide) (by decide) (by decide)
  exact ⟨h.1, h.2.1 c9plan rfl, by decide⟩

end PM
